import Mathlib

/-!
Shallow embedding of the yatube social-blogging REST API endpoint handlers,
translated from `src/yatube_api/api/views.py` and
`src/yatube_api/api/serializers.py`.

The relational store (User, Group, Post, Comment, Follow rows) is modelled as
lists of records; Django ORM calls (`objects.get`, `objects.filter`,
`objects.create`, `objects.all`) become `List.find?`, `List.filter` and list
append.  Each HTTP handler becomes a pure function from a store, a caller and
a payload to a `Resp` value paired with the resulting store; error responses
leave the store unchanged.  An unhandled Python exception escaping a handler
(which Django surfaces as an HTTP 500) is modelled by `Resp.serverError`.
-/

namespace Yatube

/-- A user account; the username is the unique identity used throughout the
API (`get_user_model()` rows are referenced by username everywhere the views
touch them). -/
structure User where
  username : String
deriving DecidableEq

/-- A group row (read-only through this API surface). -/
structure Group where
  id : Nat
  title : String
  slug : String
  description : String
deriving DecidableEq

/-- A post row; `author` holds the author username, `group` an optional group
id (nullable foreign key). -/
structure Post where
  id : Nat
  text : String
  author : String
  group : Option Nat
deriving DecidableEq

/-- A comment row, always attached to a post by id. -/
structure Comment where
  id : Nat
  text : String
  author : String
  post : Nat
deriving DecidableEq

/-- A follow edge: `user` follows `following` (both usernames). -/
structure Follow where
  user : String
  following : String
deriving DecidableEq

/-- The relational store the handlers operate on. -/
structure Store where
  users : List User
  groups : List Group
  posts : List Post
  comments : List Comment
  follows : List Follow
deriving DecidableEq

/-- An HTTP response body outcome as produced by the handlers.
`badRequest key msg` is a 400 whose JSON body is keyed by `key` (a field name
such as "group" or "following", or "detail"); `serverError` models an
unhandled exception escaping the handler, surfaced as a 500. -/
inductive Resp (α : Type) where
  | ok (body : α)
  | created (body : α)
  | noContent
  | badRequest (key : String) (msg : String)
  | forbidden (msg : String)
  | notFound
  | serverError (msg : String)
deriving DecidableEq

/-- HTTP status code of a response outcome. -/
def Resp.status {α : Type} : Resp α → Nat
  | .ok _ => 200
  | .created _ => 201
  | .noContent => 204
  | .badRequest _ _ => 400
  | .forbidden _ => 403
  | .notFound => 404
  | .serverError _ => 500

/-- Basic well-formedness of the store, guaranteed by the Django layer that
is outside this API: autoincrement primary keys are positive (so a group id
is never the Python-falsy 0) and usernames of real accounts are non-blank. -/
def Store.WF (st : Store) : Prop :=
  (∀ g ∈ st.groups, 1 ≤ g.id) ∧ (∀ u ∈ st.users, u.username ≠ "") ∧
  (st.posts.map Post.id).Nodup

instance (st : Store) : Decidable st.WF := by
  unfold Store.WF
  infer_instance

/-! ### Follow endpoint (`FollowView`, views.py lines 191-247) -/

/-- The call `User.objects.get(username=t)` with its `DoesNotExist` branch, as an option. -/
def userLookup (st : Store) (t : String) : Option User :=
  st.users.find? (fun u => decide (u.username = t))

/-- Whether a user with username `t` exists (the `FollowSerializer`'s
`validate_following` existence check, serializers.py lines 57-68). -/
def userExists (st : Store) (t : String) : Bool :=
  (userLookup st t).isSome

/-- The check `Follow.objects.filter(user=u, following=t).exists()`
(views.py lines 234-235). -/
def followExists (st : Store) (u t : String) : Bool :=
  st.follows.any (fun f => decide (f.user = u ∧ f.following = t))

/-- Number of Follow rows for the pair `(u, t)`. -/
def followCount (st : Store) (u t : String) : Nat :=
  (st.follows.filter (fun f => decide (f.user = u ∧ f.following = t))).length

/-- Body of a follow-create request; `none` models an absent `following`
field. -/
structure FollowPayload where
  following : Option String
deriving DecidableEq

/-- Handler `FollowView.post` (views.py lines 210-247) composed with the
`FollowSerializer` validation it invokes via `is_valid(raise_exception=True)`
(serializers.py lines 47-72): the `CharField` required/blank checks on
`following`, the serializer's `validate_following` existence check, then the
view's own (sequentially dead) existence re-check, the self-follow check and
the duplicate check, in source order, short-circuiting on the first failure. -/
def followPost (st : Store) (caller : User) (pl : FollowPayload) :
    Resp Follow × Store :=
  match pl.following with
  | none => (.badRequest "following" "This field is required.", st)
  | some t =>
    if t = "" then
      (.badRequest "following" "This field may not be blank.", st)
    else if userExists st t = false then
      (.badRequest "following" ("User with username " ++ t ++ " does not exist."), st)
    else
      match userLookup st t with
      | none =>
        (.badRequest "detail" ("User \x27" ++ t ++ "\x27 does not exist."), st)
      | some followingUser =>
        if caller = followingUser then
          (.badRequest "detail" "You cannot follow yourself.", st)
        else if followExists st caller.username t then
          (.badRequest "detail" "You are already following this user.", st)
        else
          (.created ⟨caller.username, t⟩,
            { st with follows := st.follows ++ [⟨caller.username, t⟩]})

/-- Whether the second char list is a prefix of the first. -/
def startsWithChars : List Char → List Char → Bool
  | _, [] => true
  | [], _ :: _ => false
  | a :: as, b :: bs => a == b && startsWithChars as bs

/-- Whether `needle` occurs contiguously inside the second list. -/
def hasSubstr (needle : List Char) : List Char → Bool
  | [] => startsWithChars [] needle
  | a :: rest => startsWithChars (a :: rest) needle || hasSubstr needle rest

/-- Django's `icontains` lookup: case-insensitive substring containment of
`needle` in `hay` (both sides lower-cased characterwise). -/
def icontains (hay needle : String) : Bool :=
  hasSubstr (needle.toList.map Char.toLower) (hay.toList.map Char.toLower)

/-- Handler `FollowView.get` (views.py lines 198-208): the caller's own follow edges,
optionally filtered by a case-insensitive substring match on the target
username (`following__username__icontains=search`); the filter is skipped
when the `search` parameter is absent or the Python-falsy empty string. -/
def followGet (st : Store) (caller : User) (search : Option String) :
    List Follow :=
  let qs := st.follows.filter (fun f => decide (f.user = caller.username))
  match search with
  | none => qs
  | some s =>
    if s = "" then qs
    else qs.filter (fun f => icontains f.following s)

/-! ### Pagination policy (`StandardResultsPagination`, views.py lines 20-37) -/

/-- Query parameters relevant to the handlers.  `limit` and `offset` are
`StandardResultsPagination`'s `page_size_query_param` and
`page_query_param`; `search` is read only by `FollowView.get`.  A `some`
value models a present parameter already parsed as a number where the
framework would parse it. -/
structure QueryParams where
  limit : Option Nat
  offset : Option Nat
  search : Option String
deriving DecidableEq

/-- Effective page size: DRF's `get_page_size` parses the `limit` parameter
as a strictly positive integer with cutoff `max_page_size = 100` and falls
back to `page_size = 10` when the parameter is absent or invalid. -/
def pageSize (limit : Option Nat) : Nat :=
  match limit with
  | none => 10
  | some v => if v = 0 then 10 else min v 100

/-- Number of pages of Django's `Paginator` (`allow_empty_first_page` keeps
at least one page even for an empty collection). -/
def numPages (count size : Nat) : Nat :=
  max 1 ((count + size - 1) / size)

/-- A list-endpoint response: `plain` is the bare collection with no
pagination envelope, `paged` the envelope (count plus one page of results),
`invalidPage` the 404 raised for an out-of-range page number. -/
inductive ListResp (α : Type) where
  | plain (items : List α)
  | paged (count : Nat) (results : List α)
  | invalidPage
deriving DecidableEq

/-- Method `StandardResultsPagination.paginate_queryset` (views.py lines 30-37)
wrapped around a list endpoint: with neither `limit` nor `offset` present the
collection is returned bare; otherwise `PageNumberPagination` pages it with
the effective page size, the `offset` parameter selecting the page number
(default 1). -/
def paginateList {α : Type} (params : QueryParams) (items : List α) :
    ListResp α :=
  if params.limit.isSome || params.offset.isSome then
    let size := pageSize params.limit
    let page := params.offset.getD 1
    if 1 ≤ page ∧ page ≤ numPages items.length size then
      .paged items.length ((items.drop (size * (page - 1))).take size)
    else .invalidPage
  else .plain items

/-! ### Post endpoints (views.py lines 40-98) -/

/-- Next autoincrement primary key for a list of existing ids. -/
def nextId (ids : List Nat) : Nat :=
  ids.foldr max 0 + 1

/-- Handler `GroupListView` list (views.py lines 173-180): all groups, with
the conditional pagination policy. -/
def groupList (st : Store) (params : QueryParams) : ListResp Group :=
  paginateList params st.groups

/-- Handler `PostListCreateView` list (views.py lines 40-48): all posts, with
the conditional pagination policy. -/
def postList (st : Store) (params : QueryParams) : ListResp Post :=
  paginateList params st.posts

/-- Body of a post create/update request.  `author` is carried to show the
handlers ignore it (the serializer declares it read-only); `group` is the
optional group id; `none` models an absent field. -/
structure PostPayload where
  text : String
  author : Option String
  group : Option Nat
deriving DecidableEq

/-- The call `Group.objects.get(pk=g)` as an option. -/
def groupLookup (st : Store) (g : Nat) : Option Group :=
  st.groups.find? (fun x => decide (x.id = g))

/-- Validation `PostSerializer.is_valid` on the writable fields relevant here: with
`fields = "__all__"` the nullable `group` foreign key becomes a
`PrimaryKeyRelatedField`, so a supplied group id must resolve to an existing
Group or validation fails with an error keyed by the `group` field
(serializers.py lines 10-21). -/
def postSerializerCheck (st : Store) (pl : PostPayload) :
    Option (String × String) :=
  match pl.group with
  | none => none
  | some g =>
    match groupLookup st g with
    | some _ => none
    | none => some ("group", "Invalid pk - object does not exist.")

/-- Handler `PostListCreateView` create: `serializer.is_valid` then
`perform_create` (views.py lines 50-62).  `perform_create` re-reads the raw
`group` value, treats the Python-falsy 0/absent as no group, re-fetches the
Group, and saves with `author=self.request.user`.  Its `except
Group.DoesNotExist` branch executes `raise serializer.ValidationError(...)`,
an attribute lookup on the serializer instance that does not exist, so that
branch raises `AttributeError` (a 500); it is unreachable sequentially
because the serializer already validated the same store. -/
def postCreate (st : Store) (caller : User) (pl : PostPayload) :
    Resp Post × Store :=
  match postSerializerCheck st pl with
  | some km => (.badRequest km.1 km.2, st)
  | none =>
    match pl.group with
    | some g =>
      if g ≠ 0 then
        match groupLookup st g with
        | some grp =>
          let p : Post :=
            ⟨nextId (st.posts.map Post.id), pl.text, caller.username, some grp.id⟩
          (.created p, { st with posts := st.posts ++ [p] })
        | none => (.serverError "AttributeError", st)
      else
        let p : Post :=
          ⟨nextId (st.posts.map Post.id), pl.text, caller.username, none⟩
        (.created p, { st with posts := st.posts ++ [p] })
    | none =>
      let p : Post :=
        ⟨nextId (st.posts.map Post.id), pl.text, caller.username, none⟩
      (.created p, { st with posts := st.posts ++ [p] })

/-- The call `Post.objects.get(pk=pk)` or `get_object()` as an option. -/
def postLookup (st : Store) (pk : Nat) : Option Post :=
  st.posts.find? (fun p => decide (p.id = pk))

/-- Handler `PostRetrieveUpdateDestroyView.update` (views.py lines 74-85): 404 when
the post is absent, 403 when the caller is not its author, otherwise the
standard update — the serializer's read-only `author` is untouched, `text`
is replaced, and a supplied `group` must resolve (absent keeps the old
group). -/
def postUpdate (st : Store) (caller : User) (pk : Nat) (pl : PostPayload) :
    Resp Post × Store :=
  match postLookup st pk with
  | none => (.notFound, st)
  | some inst =>
    if inst.author ≠ caller.username then
      (.forbidden "You cannot update another author\x27s post.", st)
    else
      match postSerializerCheck st pl with
      | some km => (.badRequest km.1 km.2, st)
      | none =>
        let p : Post :=
          ⟨inst.id, pl.text, inst.author,
            if pl.group.isSome then pl.group else inst.group⟩
        (.ok p,
          { st with posts := st.posts.map (fun q => if q.id = pk then p else q) })

/-- Handler `PostRetrieveUpdateDestroyView.destroy` (views.py lines 87-98): 404 when
the post is absent, 403 when the caller is not its author, otherwise the
standard delete of the row. -/
def postDestroy (st : Store) (caller : User) (pk : Nat) :
    Resp Unit × Store :=
  match postLookup st pk with
  | none => (.notFound, st)
  | some inst =>
    if inst.author ≠ caller.username then
      (.forbidden "You cannot delete another author\x27s post.", st)
    else
      (.noContent, { st with posts := st.posts.filter (fun q => decide (q.id ≠ pk)) })

/-! ### Comment endpoints (views.py lines 101-170) -/

/-- Body of a comment create/update request.  `author` and `post` are
carried to show the handlers ignore them (the serializer declares both
read-only, serializers.py lines 24-34). -/
structure CommentPayload where
  text : String
  author : Option String
  post : Option Nat
deriving DecidableEq

/-- Queryset `CommentListCreateView.get_queryset` (views.py lines 110-115) served
through a list view whose `pagination_class` is `None` (line 108): the
comments whose `post` equals the path's post id, always returned bare. -/
def commentList (st : Store) (postId : Nat) (params : QueryParams) :
    ListResp Comment :=
  let _ := params
  .plain (st.comments.filter (fun c => decide (c.post = postId)))

/-- Handler `CommentListCreateView.perform_create` (views.py lines 117-127): fetch
the path's post; on `Post.DoesNotExist` the code executes `raise
serializer.ValidationError(...)`, an attribute lookup on the serializer
instance that does not exist, so the request dies with `AttributeError`
(a 500) instead of the intended validation error; otherwise the comment is
saved with `author=self.request.user` and `post=post`. -/
def commentCreate (st : Store) (caller : User) (postId : Nat)
    (pl : CommentPayload) : Resp Comment × Store :=
  match postLookup st postId with
  | none => (.serverError "AttributeError", st)
  | some p =>
    let c : Comment :=
      ⟨nextId (st.comments.map Comment.id), pl.text, caller.username, p.id⟩
    (.created c, { st with comments := st.comments ++ [c] })

/-- Composition of `CommentRetrieveUpdateDestroyView.get_queryset` and `get_object`
(views.py lines 138-144): the comment whose id is the path's `pk` and whose
`post` is the path's `post_id`; a mismatch is a 404. -/
def commentLookup (st : Store) (postId pk : Nat) : Option Comment :=
  st.comments.find? (fun c => decide (c.post = postId ∧ c.id = pk))

/-- Handler `CommentRetrieveUpdateDestroyView.update` (views.py lines 146-157): 404
when the (post, comment) path pair matches no row, 403 when the caller is
not the comment's author, otherwise the standard update (read-only `author`
and `post` untouched). -/
def commentUpdate (st : Store) (caller : User) (postId pk : Nat)
    (pl : CommentPayload) : Resp Comment × Store :=
  match commentLookup st postId pk with
  | none => (.notFound, st)
  | some inst =>
    if inst.author ≠ caller.username then
      (.forbidden "You cannot update another author\x27s comment.", st)
    else
      let c : Comment := ⟨inst.id, pl.text, inst.author, inst.post⟩
      (.ok c,
        { st with comments :=
            st.comments.map (fun q => if q.post = postId ∧ q.id = pk then c else q) })

/-- Handler `CommentRetrieveUpdateDestroyView.destroy` (views.py lines 159-170): 404
when the (post, comment) path pair matches no row, 403 when the caller is
not the comment's author, otherwise the standard delete. -/
def commentDestroy (st : Store) (caller : User) (postId pk : Nat) :
    Resp Unit × Store :=
  match commentLookup st postId pk with
  | none => (.notFound, st)
  | some inst =>
    if inst.author ≠ caller.username then
      (.forbidden "You cannot delete another author\x27s comment.", st)
    else
      (.noContent,
        { st with comments :=
            st.comments.filter (fun q => decide (¬ (q.post = postId ∧ q.id = pk))) })

/-- A small concrete store used to instantiate the theorems. -/
def demoStore : Store :=
  ⟨[⟨"alice"⟩, ⟨"bob"⟩],
   [⟨1, "music", "music", "songs"⟩, ⟨2, "films", "films", "movies"⟩],
   [⟨1, "first", "alice", none⟩],
   [⟨1, "nice", "bob", 1⟩],
   [⟨"bob", "alice"⟩]⟩

/-! ## Helper lemmas about the follow handler -/

theorem userLookup_username {st : Store} {t : String} {u : User}
    (h : userLookup st t = some u) : u.username = t := by
  unfold userLookup at h
  have hp := List.find?_some h
  simpa using hp

theorem userExists_of_mem {st : Store} {u : User} (h : u ∈ st.users) :
    userExists st u.username = true := by
  unfold userExists userLookup
  rw [List.find?_isSome]
  exact ⟨u, h, by simp⟩

theorem followPost_missing {st : Store} {caller : User} {t : String}
    (hb : t ≠ "") (hex : userExists st t = false) :
    followPost st caller ⟨some t⟩ =
      (.badRequest "following" ("User with username " ++ t ++ " does not exist."), st) := by
  simp [followPost, hb, hex]

theorem followPost_self {st : Store} {caller : User} {t : String}
    (hb : t ≠ "") (hex : userExists st t = true) (hself : caller.username = t) :
    followPost st caller ⟨some t⟩ =
      (.badRequest "detail" "You cannot follow yourself.", st) := by
  obtain ⟨u, hu⟩ := Option.isSome_iff_exists.mp hex
  have hut : u.username = t := userLookup_username hu
  have hcu : caller = u := by
    cases caller; cases u; simp_all
  simp [followPost, hb, hex, hu, hcu]

theorem followPost_dup {st : Store} {caller : User} {t : String}
    (hb : t ≠ "") (hex : userExists st t = true) (hns : caller.username ≠ t)
    (hd : followExists st caller.username t = true) :
    followPost st caller ⟨some t⟩ =
      (.badRequest "detail" "You are already following this user.", st) := by
  obtain ⟨u, hu⟩ := Option.isSome_iff_exists.mp hex
  have hut : u.username = t := userLookup_username hu
  have hcu : caller ≠ u := by
    intro hh; exact hns (hh ▸ hut)
  simp [followPost, hb, hex, hu, hcu, hd]

theorem followPost_success {st : Store} {caller : User} {t : String}
    (hb : t ≠ "") (hex : userExists st t = true) (hns : caller.username ≠ t)
    (hd : followExists st caller.username t = false) :
    followPost st caller ⟨some t⟩ =
      (.created ⟨caller.username, t⟩,
        { st with follows := st.follows ++ [⟨caller.username, t⟩] }) := by
  obtain ⟨u, hu⟩ := Option.isSome_iff_exists.mp hex
  have hut : u.username = t := userLookup_username hu
  have hcu : caller ≠ u := by
    intro hh; exact hns (hh ▸ hut)
  simp [followPost, hb, hex, hu, hcu, hd]

theorem followPost_created_inv {st : Store} {caller : User} {t : String}
    {f : Follow} {st2 : Store}
    (h : followPost st caller ⟨some t⟩ = (.created f, st2)) :
    t ≠ "" ∧ userExists st t = true ∧ caller.username ≠ t ∧
    followExists st caller.username t = false ∧
    f = ⟨caller.username, t⟩ ∧
    st2 = { st with follows := st.follows ++ [⟨caller.username, t⟩] } := by
  by_cases hb : t = ""
  · simp [followPost, hb] at h
  by_cases hex : userExists st t = true
  case neg =>
    have hex' : userExists st t = false := by
      revert hex; cases userExists st t <;> simp
    rw [followPost_missing hb hex'] at h
    simp at h
  obtain ⟨u, hu⟩ := Option.isSome_iff_exists.mp hex
  have hut : u.username = t := userLookup_username hu
  by_cases hns : caller.username = t
  · rw [followPost_self hb hex hns] at h
    simp at h
  by_cases hd : followExists st caller.username t = true
  · rw [followPost_dup hb hex hns hd] at h
    simp at h
  have hd' : followExists st caller.username t = false := by
    revert hd; cases followExists st caller.username t <;> simp
  rw [followPost_success hb hex hns hd'] at h
  obtain ⟨h1, h2⟩ := Prod.mk.injEq .. ▸ h
  exact ⟨hb, hex, hns, hd', (Resp.created.injEq .. ▸ h1.symm).symm ▸ rfl, h2.symm⟩

theorem followPost_store_cases (st : Store) (c : User) (pl : FollowPayload) :
    (followPost st c pl).2 = st ∨
    ∃ t, pl.following = some t ∧ followExists st c.username t = false ∧
      (followPost st c pl).2 =
        { st with follows := st.follows ++ [⟨c.username, t⟩] } := by
  obtain ⟨fo⟩ := pl
  cases fo with
  | none => left; rfl
  | some t =>
    by_cases hb : t = ""
    · left; simp [followPost, hb]
    by_cases hex : userExists st t = true
    case neg =>
      have hex' : userExists st t = false := by
        revert hex; cases userExists st t <;> simp
      left; rw [followPost_missing hb hex']
    case pos =>
      by_cases hns : c.username = t
      · left; rw [followPost_self hb hex hns]
      by_cases hd : followExists st c.username t = true
      · left; rw [followPost_dup hb hex hns hd]
      have hd' : followExists st c.username t = false := by
        revert hd; cases followExists st c.username t <;> simp
      right
      exact ⟨t, rfl, hd', by rw [followPost_success hb hex hns hd']⟩

theorem followCount_append_self (st : Store) (u t : String) :
    followCount { st with follows := st.follows ++ [⟨u, t⟩] } u t =
      followCount st u t + 1 := by
  simp [followCount, List.filter_append]

theorem followCount_append_other (st : Store) (e : Follow) (u v : String)
    (hne : ¬ (e.user = u ∧ e.following = v)) :
    followCount { st with follows := st.follows ++ [e] } u v =
      followCount st u v := by
  simp [followCount, List.filter_append, hne]

theorem followCount_eq_zero {st : Store} {u t : String}
    (h : followExists st u t = false) : followCount st u t = 0 := by
  unfold followExists at h
  rw [List.any_eq_false] at h
  unfold followCount
  rw [List.length_eq_zero, List.filter_eq_nil_iff]
  exact h

/-! ## Claims about the follow endpoint -/

/-- Claim C2: for a follow-creation request with a present (non-blank)
`following` field, the validation checks run in the fixed order
existence, self-follow, duplicate, each short-circuiting with its own 400
error, and only when all pass is the edge persisted and returned with 201. -/
theorem follow_post_check_order (st : Store) (caller : User) (t : String)
    (hb : t ≠ "") :
    (userExists st t = false →
      followPost st caller ⟨some t⟩ =
        (.badRequest "following" ("User with username " ++ t ++ " does not exist."), st)) ∧
    (userExists st t = true → caller.username = t →
      followPost st caller ⟨some t⟩ =
        (.badRequest "detail" "You cannot follow yourself.", st)) ∧
    (userExists st t = true → caller.username ≠ t →
      followExists st caller.username t = true →
      followPost st caller ⟨some t⟩ =
        (.badRequest "detail" "You are already following this user.", st)) ∧
    (userExists st t = true → caller.username ≠ t →
      followExists st caller.username t = false →
      followPost st caller ⟨some t⟩ =
        (.created ⟨caller.username, t⟩,
          { st with follows := st.follows ++ [⟨caller.username, t⟩] })) :=
  ⟨fun hex => followPost_missing hb hex,
   fun hex hself => followPost_self hb hex hself,
   fun hex hns hd => followPost_dup hb hex hns hd,
   fun hex hns hd => followPost_success hb hex hns hd⟩

/-- Witness for C2, at the concrete store `demoStore`: alice follows bob, all
three checks pass, and the edge is created. -/
theorem follow_post_check_order_witness :
    ("bob" : String) ≠ "" ∧
    followPost demoStore ⟨"alice"⟩ ⟨some "bob"⟩ =
      (.created ⟨"alice", "bob"⟩,
        { demoStore with follows := demoStore.follows ++ [⟨"alice", "bob"⟩] }) :=
  ⟨by decide,
    (follow_post_check_order demoStore ⟨"alice"⟩ "bob" (by decide)).2.2.2
      (by decide) (by decide) (by decide)⟩

/-- Claim C3: an authenticated caller naming themselves as the follow target
is rejected with a 400 "You cannot follow yourself." and no Follow row is
created (the store is unchanged). -/
theorem follow_self_rejected (st : Store) (caller : User) (hwf : st.WF)
    (hmem : caller ∈ st.users) :
    followPost st caller ⟨some caller.username⟩ =
      (.badRequest "detail" "You cannot follow yourself.", st) ∧
    (followPost st caller ⟨some caller.username⟩).1.status = 400 ∧
    (followPost st caller ⟨some caller.username⟩).2.follows = st.follows := by
  have hb : caller.username ≠ "" := hwf.2.1 caller hmem
  have hex : userExists st caller.username = true := userExists_of_mem hmem
  have h := followPost_self hb hex rfl
  exact ⟨h, by rw [h]; rfl, by rw [h]⟩

/-- Witness for C3: alice tries to follow alice in `demoStore`. -/
theorem follow_self_rejected_witness :
    demoStore.WF ∧ (⟨"alice"⟩ : User) ∈ demoStore.users ∧
    followPost demoStore ⟨"alice"⟩ ⟨some "alice"⟩ =
      (.badRequest "detail" "You cannot follow yourself.", demoStore) :=
  ⟨by decide, by decide,
    (follow_self_rejected demoStore ⟨"alice"⟩ (by decide) (by decide)).1⟩

/-- Claim C4: after a successful follow-create, an identical second request
is rejected with a 400 "already following" error and the store keeps exactly
one row for the pair; moreover every follow-create preserves the
at-most-one-edge-per-pair invariant. -/
theorem follow_unique_per_pair (st : Store) (caller : User) (t : String)
    (f : Follow) (st2 : Store)
    (h : followPost st caller ⟨some t⟩ = (.created f, st2)) :
    followPost st2 caller ⟨some t⟩ =
      (.badRequest "detail" "You are already following this user.", st2) ∧
    followCount st2 caller.username t = 1 ∧
    (∀ st3 c pl, (∀ u v, followCount st3 u v ≤ 1) →
      ∀ u v, followCount (followPost st3 c pl).2 u v ≤ 1) := by
  obtain ⟨hb, hex, hns, hd, hf, hst2⟩ := followPost_created_inv h
  subst hst2
  have hex2 : userExists { st with follows := st.follows ++ [⟨caller.username, t⟩] } t = true := hex
  have hd2 : followExists { st with follows := st.follows ++ [⟨caller.username, t⟩] }
      caller.username t = true := by
    unfold followExists
    rw [List.any_eq_true]
    exact ⟨⟨caller.username, t⟩, by simp, by simp⟩
  refine ⟨followPost_dup hb hex2 hns hd2, ?_, ?_⟩
  · rw [followCount_append_self, followCount_eq_zero hd]
  · intro st3 c pl hinv u v
    rcases followPost_store_cases st3 c pl with hc | ⟨s, _, hds, hc⟩
    · rw [hc]; exact hinv u v
    · rw [hc]
      by_cases hp : c.username = u ∧ s = v
      · obtain ⟨h1, h2⟩ := hp
        subst h1; subst h2
        rw [followCount_append_self, followCount_eq_zero hds]
      · have hne : ¬ ((⟨c.username, s⟩ : Follow).user = u ∧
            (⟨c.username, s⟩ : Follow).following = v) := hp
        rw [followCount_append_other st3 ⟨c.username, s⟩ u v hne]
        exact hinv u v

/-- Witness for C4: alice successfully follows bob in `demoStore`, then the
repeat request is rejected and the pair count is one. -/
theorem follow_unique_per_pair_witness :
    followPost demoStore ⟨"alice"⟩ ⟨some "bob"⟩ =
      (.created ⟨"alice", "bob"⟩,
        { demoStore with follows := demoStore.follows ++ [⟨"alice", "bob"⟩] }) ∧
    followPost { demoStore with follows := demoStore.follows ++ [⟨"alice", "bob"⟩] }
        ⟨"alice"⟩ ⟨some "bob"⟩ =
      (.badRequest "detail" "You are already following this user.",
        { demoStore with follows := demoStore.follows ++ [⟨"alice", "bob"⟩] }) ∧
    followCount { demoStore with follows := demoStore.follows ++ [⟨"alice", "bob"⟩] }
        "alice" "bob" = 1 :=
  ⟨by decide,
   (follow_unique_per_pair demoStore ⟨"alice"⟩ "bob" ⟨"alice", "bob"⟩
      { demoStore with follows := demoStore.follows ++ [⟨"alice", "bob"⟩] }
      (by decide)).1,
   (follow_unique_per_pair demoStore ⟨"alice"⟩ "bob" ⟨"alice", "bob"⟩
      { demoStore with follows := demoStore.follows ++ [⟨"alice", "bob"⟩] }
      (by decide)).2.1⟩

/-! ## Claims about the follow list, comment list and pagination -/

theorem icontains_empty_needle (hay : String) : icontains hay "" = true := by
  unfold icontains
  have h2 : (("" : String).toList.map Char.toLower) = [] := rfl
  rw [h2]
  cases hay.toList.map Char.toLower with
  | nil => rfl
  | cons a rest => simp [hasSubstr, startsWithChars]

/-- Claim C9: the follow list returns exactly the caller's outgoing edges,
and with a `search` parameter only those whose target username contains the
search string case-insensitively (the handler skips the filter for the empty
string, which every username contains, so the characterisation is uniform). -/
theorem follow_get_filter (st : Store) (caller : User)
    (search : Option String) (f : Follow) :
    f ∈ followGet st caller search ↔
      f ∈ st.follows ∧ f.user = caller.username ∧
        ∀ s, search = some s → icontains f.following s = true := by
  cases search with
  | none => simp [followGet, List.mem_filter]
  | some s =>
    by_cases hs : s = ""
    · subst hs
      simp [followGet, List.mem_filter, icontains_empty_needle]
    · simp [followGet, hs, List.mem_filter]
      tauto

/-- Claim C7: a comment list under a post id is exactly the comments whose
`post` is that id, in storage order (a sublist of the comment table), and is
never paginated: it is a `plain` response for every query-parameter value. -/
theorem comment_list_scope (st : Store) (postId : Nat) (params : QueryParams) :
    ∃ l, commentList st postId params = .plain l ∧
      l.Sublist st.comments ∧
      ∀ c, c ∈ l ↔ c ∈ st.comments ∧ c.post = postId := by
  refine ⟨st.comments.filter (fun c => decide (c.post = postId)), rfl,
    List.filter_sublist st.comments, ?_⟩
  intro c
  simp [List.mem_filter]

/-- Claim C6: with neither `limit` nor `offset` the list endpoints return
the bare collection; with either present they page with default size 10,
a hard cap of 100 (an explicit larger `limit` is clamped), the page of
results being a slice of the collection of the effective page size. -/
theorem pagination_conditional (st : Store) (params : QueryParams) :
    (params.limit = none → params.offset = none →
      groupList st params = .plain st.groups ∧
      postList st params = .plain st.posts) ∧
    (pageSize none = 10) ∧
    (∀ v : Nat, 100 < v → pageSize (some v) = 100) ∧
    (∀ lim : Option Nat, pageSize lim ≤ 100) ∧
    ((params.limit.isSome || params.offset.isSome) = true →
      1 ≤ params.offset.getD 1 →
      params.offset.getD 1 ≤ numPages st.groups.length (pageSize params.limit) →
      groupList st params =
        .paged st.groups.length
          ((st.groups.drop (pageSize params.limit * (params.offset.getD 1 - 1))).take
            (pageSize params.limit))) ∧
    ((params.limit.isSome || params.offset.isSome) = true →
      1 ≤ params.offset.getD 1 →
      params.offset.getD 1 ≤ numPages st.posts.length (pageSize params.limit) →
      postList st params =
        .paged st.posts.length
          ((st.posts.drop (pageSize params.limit * (params.offset.getD 1 - 1))).take
            (pageSize params.limit))) := by
  refine ⟨?_, rfl, ?_, ?_, ?_, ?_⟩
  · intro h1 h2
    constructor <;> simp [groupList, postList, paginateList, h1, h2]
  · intro v hv
    have hv0 : v ≠ 0 := by omega
    simp [pageSize, hv0, Nat.min_eq_right (by omega : 100 ≤ v)]
  · intro lim
    cases lim with
    | none => simp [pageSize]
    | some v =>
      by_cases hv : v = 0
      · simp [pageSize, hv]
      · simp [pageSize, hv]
  · intro hsome h1 h2
    simp only [groupList, paginateList, hsome, if_true]
    rw [if_pos ⟨h1, h2⟩]
  · intro hsome h1 h2
    simp only [postList, paginateList, hsome, if_true]
    rw [if_pos ⟨h1, h2⟩]

/-- Witness for C6: `/groups/` on `demoStore` with `limit=1` yields a paged
envelope with one item (while `demoStore` has two groups). -/
theorem pagination_conditional_witness :
    ((some 1 : Option Nat).isSome || (none : Option Nat).isSome) = true ∧
    groupList demoStore ⟨some 1, none, none⟩ =
      .paged 2 [⟨1, "music", "music", "songs"⟩] := by
  refine ⟨by decide, ?_⟩
  have h := (pagination_conditional demoStore ⟨some 1, none, none⟩).2.2.2.2.1
    (by decide) (by decide) (by decide)
  rw [h]
  decide

/-! ## Claims about the post endpoints -/

theorem groupLookup_id {st : Store} {g : Nat} {grp : Group}
    (h : groupLookup st g = some grp) : grp.id = g := by
  unfold groupLookup at h
  have hp := List.find?_some h
  simpa using hp

theorem groupLookup_mem {st : Store} {g : Nat} {grp : Group}
    (h : groupLookup st g = some grp) : grp ∈ st.groups := by
  unfold groupLookup at h
  exact List.mem_of_find?_eq_some h

theorem groupLookup_isSome {st : Store} {g : Nat}
    (h : ∃ grp ∈ st.groups, grp.id = g) : ∃ grp, groupLookup st g = some grp := by
  obtain ⟨grp, hmem, hid⟩ := h
  have hs : (groupLookup st g).isSome = true := by
    unfold groupLookup
    rw [List.find?_isSome]
    exact ⟨grp, hmem, by simp [hid]⟩
  exact Option.isSome_iff_exists.mp hs

/-- Claim C1: a post-create whose payload names an existing group succeeds
with 201, the row's author forced to the caller (whatever `author` the
payload carries) and its group the supplied one; naming a nonexistent group
fails with a 400 keyed by the `group` field and the store is unchanged. -/
theorem post_create_group_validation (st : Store) (caller : User)
    (pl : PostPayload) (g : Nat) (hwf : st.WF) (hg : pl.group = some g) :
    ((∃ grp ∈ st.groups, grp.id = g) →
      ∃ p, postCreate st caller pl =
          (.created p, { st with posts := st.posts ++ [p] }) ∧
        p.author = caller.username ∧ p.group = some g) ∧
    ((∀ grp ∈ st.groups, grp.id ≠ g) →
      postCreate st caller pl =
        (.badRequest "group" "Invalid pk - object does not exist.", st)) := by
  constructor
  · intro hex
    obtain ⟨grp, hlk⟩ := groupLookup_isSome hex
    have hid : grp.id = g := groupLookup_id hlk
    have hpos : 1 ≤ grp.id := hwf.1 grp (groupLookup_mem hlk)
    have hg0 : g ≠ 0 := by omega
    refine ⟨⟨nextId (st.posts.map Post.id), pl.text, caller.username, some grp.id⟩, ?_, rfl, by rw [hid]⟩
    unfold postCreate postSerializerCheck
    rw [hg]
    simp [hg0, hlk]
  · intro hnone
    have hlk : groupLookup st g = none := by
      unfold groupLookup
      rw [List.find?_eq_none]
      intro grp hmem
      simpa using hnone grp hmem
    unfold postCreate postSerializerCheck
    rw [hg]
    simp [hlk]

/-- Witness for C1: bob creates a post naming existing group 2 with a bogus
payload `author`; the row is created with author bob and group 2. -/
theorem post_create_group_validation_witness :
    demoStore.WF ∧ (∃ grp ∈ demoStore.groups, grp.id = 2) ∧
    ∃ p, postCreate demoStore ⟨"bob"⟩ ⟨"hello", some "evil", some 2⟩ =
        (.created p, { demoStore with posts := demoStore.posts ++ [p] }) ∧
      p.author = "bob" ∧ p.group = some 2 :=
  ⟨by decide, by decide,
    (post_create_group_validation demoStore ⟨"bob"⟩ ⟨"hello", some "evil", some 2⟩ 2
      (by decide) rfl).1 (by decide)⟩

/-- Claim C5: updating or deleting an existing post as a non-author yields a
403 with the corresponding detail message and leaves the store unchanged; as
the author, delete removes the row and update never changes the author of
the post at that id. -/
theorem post_mutation_owner_only (st : Store) (caller : User) (pk : Nat)
    (pl : PostPayload) (P : Post) (hwf : st.WF)
    (hP : postLookup st pk = some P) :
    (P.author ≠ caller.username →
      postUpdate st caller pk pl =
        (.forbidden "You cannot update another author\x27s post.", st) ∧
      postDestroy st caller pk =
        (.forbidden "You cannot delete another author\x27s post.", st)) ∧
    (P.author = caller.username →
      postDestroy st caller pk =
        (.noContent,
          { st with posts := st.posts.filter (fun q => decide (q.id ≠ pk)) }) ∧
      ∀ q ∈ (postUpdate st caller pk pl).2.posts, q.id = pk →
        q.author = P.author) := by
  have hPmem : P ∈ st.posts := by
    unfold postLookup at hP
    exact List.mem_of_find?_eq_some hP
  have hPid : P.id = pk := by
    unfold postLookup at hP
    have hp := List.find?_some hP
    simpa using hp
  constructor
  · intro hne
    constructor
    · unfold postUpdate
      rw [hP]
      simp [hne]
    · unfold postDestroy
      rw [hP]
      simp [hne]
  · intro heq
    constructor
    · unfold postDestroy
      rw [hP]
      simp [heq]
    · intro q hq hqid
      unfold postUpdate at hq
      rw [hP] at hq
      simp only [heq, ne_eq, not_true_eq_false, if_false, ite_false] at hq
      cases hck : postSerializerCheck st pl with
      | some km =>
        rw [hck] at hq
        simp at hq
        have := List.inj_on_of_nodup_map hwf.2.2 hq hPmem (by rw [hqid, hPid])
        rw [this]
      | none =>
        rw [hck] at hq
        simp only [List.mem_map] at hq
        obtain ⟨r, hr, hrq⟩ := hq
        by_cases hrid : r.id = pk
        · rw [if_pos hrid] at hrq
          rw [← hrq]
          exact heq.symm
        · rw [if_neg hrid] at hrq
          exact absurd (hrq ▸ hqid) hrid

/-- Witness for C5: bob, not the author of post 1 in `demoStore`, is refused
the update with a 403 and the store is untouched. -/
theorem post_mutation_owner_only_witness :
    demoStore.WF ∧ postLookup demoStore 1 = some ⟨1, "first", "alice", none⟩ ∧
    ("alice" : String) ≠ "bob" ∧
    postUpdate demoStore ⟨"bob"⟩ 1 ⟨"x", none, none⟩ =
      (.forbidden "You cannot update another author\x27s post.", demoStore) :=
  ⟨by decide, by decide, by decide,
    ((post_mutation_owner_only demoStore ⟨"bob"⟩ 1 ⟨"x", none, none⟩
        ⟨1, "first", "alice", none⟩ (by decide) (by decide)).1 (by decide)).1⟩

/-! ## Claims about the comment endpoints -/

/-- Claim C8, settled against the code as written: creating a comment under
a nonexistent post id executes `raise serializer.ValidationError(...)`
(views.py line 126), an attribute lookup that fails on the serializer
instance, so the request dies with an unhandled AttributeError (HTTP 500)
instead of the NotFound-class validation error; no Comment row is created.
On an existing post the comment is created with author and post forced
server-side, ignoring the payload's `author` and `post` values. -/
theorem comment_create_missing_post_bug :
    commentCreate demoStore ⟨"alice"⟩ 99 ⟨"hi", some "evil", some 7⟩ =
      (.serverError "AttributeError", demoStore) ∧
    Resp.status (commentCreate demoStore ⟨"alice"⟩ 99 ⟨"hi", some "evil", some 7⟩).1 = 500 ∧
    commentCreate demoStore ⟨"alice"⟩ 1 ⟨"hi", some "evil", some 7⟩ =
      (.created ⟨2, "hi", "alice", 1⟩,
        { demoStore with comments := demoStore.comments ++ [⟨2, "hi", "alice", 1⟩] }) :=
  ⟨by decide, by decide, by decide⟩

/-- Claim C10: when no comment row matches the path's (post id, comment id)
pair — unknown comment id, or a comment that lives under a different post —
update and delete answer 404 with the store unchanged, for every caller, so
a non-author never sees the 403 ownership error on a mismatched path. -/
theorem comment_mismatch_not_found (st : Store) (postId pk : Nat)
    (h : ∀ c ∈ st.comments, ¬ (c.post = postId ∧ c.id = pk)) :
    ∀ caller pl,
      commentUpdate st caller postId pk pl = (.notFound, st) ∧
      commentDestroy st caller postId pk = (.notFound, st) := by
  intro caller pl
  have hl : commentLookup st postId pk = none := by
    unfold commentLookup
    rw [List.find?_eq_none]
    intro c hc
    simpa using h c hc
  constructor
  · unfold commentUpdate
    rw [hl]
  · unfold commentDestroy
    rw [hl]

/-- Witness for C10: comment 1 of `demoStore` lives under post 1, so the
path (post 2, comment 1) is a mismatch and non-author alice gets 404. -/
theorem comment_mismatch_not_found_witness :
    (∀ c ∈ demoStore.comments, ¬ (c.post = 2 ∧ c.id = 1)) ∧
    commentUpdate demoStore ⟨"alice"⟩ 2 1 ⟨"zz", none, none⟩ = (.notFound, demoStore) ∧
    commentDestroy demoStore ⟨"alice"⟩ 2 1 = (.notFound, demoStore) :=
  ⟨by decide,
   (comment_mismatch_not_found demoStore 2 1 (by decide) ⟨"alice"⟩ ⟨"zz", none, none⟩).1,
   (comment_mismatch_not_found demoStore 2 1 (by decide) ⟨"alice"⟩ ⟨"zz", none, none⟩).2⟩

end Yatube
